import Mathlib

/-!
# RummyLite game engine: a shallow embedding with verified properties

This file embeds the core rule engine of the RummyLite repository
(`Card.ts`, `Player.ts`, `TurnManager.ts`, `GameValidator.ts`,
`ScoreManager.ts`, `Game.ts`) as executable Lean definitions, and proves
or refutes the specification claims about it.

Modelling conventions:
* TypeScript classes become structures; in-place mutation becomes explicit
  state passing (every method that mutates returns the updated value).
* JavaScript numbers used by the engine are small integers; they are
  modelled as `Nat`/`Int`.
* A thrown `new Error(msg)` is modelled as `JsResult.err msg`; an implicit
  runtime `TypeError` (for example reading a property of `undefined`) is
  modelled as `JsResult.crash`.  Both carry no state themselves: each
  action function returns the pair of the outcome and the game state as it
  stands when the function returns or the exception escapes.
* `Math.random()`-driven choices (shuffles, the joker reference index, the
  starting seat) are modelled as parameters of the initialisation
  function, constrained by `ValidInit`.
* Wall-clock data (`Date.now()` timestamps, the random `Meld.id` /
  `Game.id` strings) is outside the embedding; those fields are omitted.
  No game rule reads them.
-/

/-- The four suits, as in `Card.ts`. -/
inductive Suit where
  | hearts | diamonds | clubs | spades
deriving DecidableEq, Repr, Inhabited

/-- The thirteen ranks `'A' | '2' | ... | '10' | 'J' | 'Q' | 'K'`. -/
inductive Rank where
  | A | n2 | n3 | n4 | n5 | n6 | n7 | n8 | n9 | n10 | J | Q | K
deriving DecidableEq, Repr, Inhabited

/-- `CARD_VALUES` from `Card.ts` (hand-scoring values, Rul-007):
`A → 15`, `2..10 → 5`, `J/Q/K → 10`. -/
def CARD_VALUES : Rank → Nat
  | .A => 15
  | .n2 | .n3 | .n4 | .n5 | .n6 | .n7 | .n8 | .n9 | .n10 => 5
  | .J | .Q | .K => 10

/-- `WINNING_CARD_VALUES` from `Card.ts` (Rul-005 Memukul values):
`A → 150`, `2..10 → 50`, `J/Q/K → 100`. -/
def WINNING_CARD_VALUES : Rank → Nat
  | .A => 150
  | .n2 | .n3 | .n4 | .n5 | .n6 | .n7 | .n8 | .n9 | .n10 => 50
  | .J | .Q | .K => 100

/-- A card.  The TypeScript constructor computes `id` and `value` from the
suit and rank, so only `suit`, `rank` and `isJoker` are stored. -/
structure Card where
  suit : Suit
  rank : Rank
  isJoker : Bool := false
deriving DecidableEq, Repr, Inhabited

/-- The derived card id `` `${suit}-${rank}` ``.  The string is injective
in the (suit, rank) pair, so the pair itself serves as the id. -/
abbrev CardId := Suit × Rank

/-- `card.id`. -/
def Card.cardId (c : Card) : CardId := (c.suit, c.rank)

/-- `card.value`, assigned from `CARD_VALUES` in the constructor. -/
def Card.value (c : Card) : Nat := CARD_VALUES c.rank

/-- `Card.getWinningValue()`: 250 for a joker, otherwise the
`WINNING_CARD_VALUES` entry for the rank. -/
def Card.getWinningValue (c : Card) : Nat :=
  if c.isJoker then 250 else WINNING_CARD_VALUES c.rank

/-- `Card.matchesByRank(other)`: same rank, different suit. -/
def Card.matchesByRank (c other : Card) : Bool :=
  decide (c.rank = other.rank) && !(decide (c.suit = other.suit))

/-- `Card.formsSequenceWith(other)`: same suit and
`Math.abs(this.value - other.value) === 1`. -/
def Card.formsSequenceWith (c other : Card) : Bool :=
  decide (c.suit = other.suit) &&
    decide (((c.value : Int) - (other.value : Int)).natAbs = 1)

/-- Stable insertion used to model `Array.prototype.sort`: the new element
goes after every existing element `b` with `le b a`. -/
def insertStable (le : α → α → Bool) (a : α) : List α → List α
  | [] => [a]
  | b :: bs => if le b a then b :: insertStable le a bs else a :: b :: bs

/-- Model of `Array.prototype.sort(cmp)` for a total-preorder comparator:
JavaScript's sort is required to be stable (ES2019), and a stable sort by
a total preorder has a unique result, so stable insertion sort computes
it.  `le a b` models `cmp(a, b) <= 0`. -/
def stableSortBy (le : α → α → Bool) (l : List α) : List α :=
  l.foldl (fun acc a => insertStable le a acc) []

/-- `[...cards].sort((a, b) => a.value - b.value)` from
`GameValidator.isValidRun`. -/
def sortCardsByValue (cards : List Card) : List Card :=
  stableSortBy (fun a b => decide (a.value ≤ b.value)) cards

/-- `sortedCards.slice(0, i).reverse().find(c => !c.isJoker)`. -/
def prevNonJoker (sorted : List Card) (i : Nat) : Option Card :=
  ((sorted.take i).reverse).find? (fun c => !c.isJoker)

/-- Body of the `for (let i = 1; ...)` loop in `GameValidator.isValidRun`
at index `i`: jokers are skipped; a non-joker following a joker is checked
against the closest earlier non-joker (if any); a non-joker following a
non-joker must have `value` exactly one larger. -/
def runStepOk (sorted : List Card) (i : Nat) : Bool :=
  match sorted.get? (i - 1), sorted.get? i with
  | some prevCard, some currCard =>
    if currCard.isJoker then true
    else if prevCard.isJoker then
      match prevNonJoker sorted i with
      | some pnj => decide (currCard.value = pnj.value + 1)
      | none => true
    else decide (currCard.value = prevCard.value + 1)
  | _, _ => true

/-- `GameValidator.isValidRun(cards)`.  Note that the source sorts and
compares by `card.value`, the `CARD_VALUES` scoring value, not by any
rank-sequence number. -/
def isValidRun (cards : List Card) : Bool :=
  if cards.length < 3 || 4 < cards.length then false
  else
    -- Special case: 4 Ace cards are considered a valid run
    let allAces := cards.all (fun c => decide (c.rank = Rank.A) || c.isJoker)
    let aceCount := (cards.filter (fun c => decide (c.rank = Rank.A))).length
    if allAces && decide (aceCount = 4) then true
    else
      let sortedCards := sortCardsByValue cards
      let suit := (sortedCards.getD 0 default).suit
      if !sortedCards.all (fun c => decide (c.suit = suit) || c.isJoker) then
        false
      else
        (List.range sortedCards.length).all
          (fun i => if i = 0 then true else runStepOk sortedCards i)

/-- `GameValidator.isValidSet(cards)`: 3-4 cards, all non-joker ranks
equal, at least one non-joker, no duplicate suit among non-jokers
(`new Set(suits).size !== suits.length`). -/
def isValidSet (cards : List Card) : Bool :=
  if cards.length < 3 || 4 < cards.length then false
  else
    let ranks := (cards.filter (fun c => !c.isJoker)).map Card.rank
    if decide (ranks.length = 0) then false
    else
      let firstRank := ranks.getD 0 default
      if !ranks.all (fun r => decide (r = firstRank)) then false
      else
        let suits := (cards.filter (fun c => !c.isJoker)).map Card.suit
        if !decide (suits.dedup.length = suits.length) then false
        else true

/-- Meld types. -/
inductive MeldType where
  | run | set
deriving DecidableEq, Repr, Inhabited

/-- `GameValidator.isValidMeld(cards)`: `{valid, type?}` becomes
`Option MeldType`; run is tried before set. -/
def isValidMeld (cards : List Card) : Option MeldType :=
  if isValidRun cards then some .run
  else if isValidSet cards then some .set
  else none

/-- A declared meld (`Meld` in `Card.ts`).  The random timestamp-based
`id` is not modelled; no rule reads it. -/
structure Meld where
  type : MeldType
  cards : List Card
  playerId : String
deriving DecidableEq, Repr, Inhabited

/-- `Meld.isRun()`. -/
def Meld.isRun (m : Meld) : Bool := decide (m.type = MeldType.run)

/-- `Meld.getSize()`. -/
def Meld.getSize (m : Meld) : Nat := m.cards.length

/-- The suit order used by `Player.sortHand`. -/
def suitOrderIndex : Suit → Nat
  | .hearts => 0
  | .diamonds => 1
  | .clubs => 2
  | .spades => 3

/-- Comparator of `Player.sortHand` (`a.value - b.value`, ties broken by
suit order), expressed as `cmp(a,b) <= 0` for the stable sort model. -/
def sortHandLe (a b : Card) : Bool :=
  decide (a.value < b.value) ||
    (decide (a.value = b.value) && decide (suitOrderIndex a.suit ≤ suitOrderIndex b.suit))

/-- The 52-card standard deck in construction order (`Deck.initialize`:
suits outer loop, ranks inner loop, `isJoker = false`). -/
def standardDeck : List Card :=
  ([Suit.hearts, Suit.diamonds, Suit.clubs, Suit.spades]).flatMap (fun s =>
    ([Rank.A, Rank.n2, Rank.n3, Rank.n4, Rank.n5, Rank.n6, Rank.n7, Rank.n8,
      Rank.n9, Rank.n10, Rank.J, Rank.Q, Rank.K]).map (fun r =>
        { suit := s, rank := r, isJoker := false }))

/-- Per-seat player state (`Player.ts`).  `displayName` is presentation
data read by no rule and is omitted. -/
structure Player where
  id : String
  hand : List Card := []
  melds : List Meld := []
  score : Int := 0
  ready : Bool := false
  connected : Bool := true
  hasLaidRun : Bool := false
deriving DecidableEq, Repr, Inhabited

/-- `Player.getHandSize()`. -/
def Player.getHandSize (p : Player) : Nat := p.hand.length

/-- `Player.addCards(cards)`: `this.hand.push(...cards)`. -/
def Player.addCards (p : Player) (cards : List Card) : Player :=
  { p with hand := p.hand ++ cards }

/-- `Player.hasCard(cardId)`. -/
def Player.hasCard (p : Player) (cid : CardId) : Bool :=
  p.hand.any (fun c => decide (c.cardId = cid))

/-- `Player.removeCard(cardId)`: `findIndex` then `splice(index, 1)`;
returns the removed card (if any) together with the updated player. -/
def Player.removeCard (p : Player) (cid : CardId) : Option Card × Player :=
  match p.hand.findIdx? (fun c => decide (c.cardId = cid)) with
  | some i => (p.hand.get? i, { p with hand := p.hand.eraseIdx i })
  | none => (none, p)

/-- `Player.removeCards(cardIds)`: repeated `removeCard`, collecting the
cards that were actually found. -/
def Player.removeCards (p : Player) (cids : List CardId) : List Card × Player :=
  cids.foldl
    (fun acc cid =>
      match acc.2.removeCard cid with
      | (some c, p') => (acc.1 ++ [c], p')
      | (none, p') => (acc.1, p'))
    ([], p)

/-- `Player.addMeld(meld)`: push the meld and latch `hasLaidRun` when the
meld is a run. -/
def Player.addMeld (p : Player) (m : Meld) : Player :=
  { p with melds := p.melds ++ [m],
           hasLaidRun := p.hasLaidRun || m.isRun }

/-- `Player.canWin()`: exactly 1 card, at least one meld, `hasLaidRun`. -/
def Player.canWin (p : Player) : Bool :=
  decide (p.hand.length = 1) && decide (0 < p.melds.length) && p.hasLaidRun

/-- `Player.hasWon()`: empty hand and at least one meld (no `hasLaidRun`
condition). -/
def Player.hasWon (p : Player) : Bool :=
  decide (p.hand.length = 0) && decide (0 < p.melds.length)

/-- `Player.hasMatchingPair(topCard)`: some hand card matches by rank or
forms a sequence with the given card. -/
def Player.hasMatchingPair (p : Player) (topCard : Card) : Bool :=
  p.hand.any (fun c => c.matchesByRank topCard || c.formsSequenceWith topCard)

/-- `Player.getMatchingCardsSequence(discardPile)`: walk the pile from the
top (the end of the array) down, `unshift`-ing each card while it matches
and stopping at the first non-matching card — i.e. the longest matching
suffix of the pile, in pile order.  The return type is a plain array of
cards. -/
def Player.getMatchingCardsSequence (p : Player) (discardPile : List Card) : List Card :=
  (discardPile.reverse.takeWhile (fun c => p.hasMatchingPair c)).reverse

/-- `Player.sortHand()`. -/
def Player.sortHand (p : Player) : Player :=
  { p with hand := stableSortBy sortHandLe p.hand }

/-- A recorded turn action (`TurnAction` in `TurnManager.ts`), minus the
wall-clock timestamp. -/
inductive ActionKind where
  | draw | discard | meld
deriving DecidableEq, Repr, Inhabited

/-- The `details` record of a `TurnAction`.  The timestamp-based `meldId`
is omitted; `recordAction` only reads `drawCount`. -/
structure ActionDetails where
  cardId : Option CardId := none
  cardIds : Option (List CardId) := none
  drawCount : Option Nat := none
deriving DecidableEq, Repr, Inhabited

/-- `TurnAction` minus its timestamp. -/
structure TurnAction where
  type : ActionKind
  playerId : String
  details : ActionDetails := {}
deriving DecidableEq, Repr, Inhabited

/-- `TurnData` minus its start/end times. -/
structure TurnData where
  playerIndex : Nat
  actions : List TurnAction := []
deriving DecidableEq, Repr, Inhabited

/-- Turn-manager state (`TurnManager.ts`).  The `players` array in the
source aliases the game's player array and is kept only on `Game` here;
operations needing the player count take it as an argument. -/
structure TurnManager where
  currentPlayerIndex : Nat := 0
  direction : Int := 1
  turnHistory : List TurnData := []
  currentTurn : TurnData := { playerIndex := 0 }
  firstPlayerDiscarded : Bool := false
  lastDrawFromDiscard : Bool := false
deriving DecidableEq, Repr, Inhabited

/-- `TurnManager.setCurrentPlayerIndex(index)`: guarded by
`0 <= index < players.length`; also restarts the current turn. -/
def TurnManager.setCurrentPlayerIndex (tm : TurnManager) (index playerCount : Nat) :
    TurnManager :=
  if index < playerCount then
    { tm with currentPlayerIndex := index,
              currentTurn := { playerIndex := index, actions := [] } }
  else tm

/-- `TurnManager.getNextPlayerIndex()` (with the source's wraparound). -/
def TurnManager.getNextPlayerIndex (tm : TurnManager) (playerCount : Nat) : Nat :=
  let nextIndex : Int := (tm.currentPlayerIndex : Int) + tm.direction
  if (playerCount : Int) ≤ nextIndex then 0
  else if nextIndex < 0 then playerCount - 1
  else nextIndex.toNat

/-- `TurnManager.nextTurn()`: archive the current turn, advance the
index, clear `lastDrawFromDiscard`, start a fresh turn. -/
def TurnManager.nextTurn (tm : TurnManager) (playerCount : Nat) : TurnManager :=
  let nextIdx := tm.getNextPlayerIndex playerCount
  { tm with turnHistory := tm.turnHistory ++ [tm.currentTurn],
            currentPlayerIndex := nextIdx,
            lastDrawFromDiscard := false,
            currentTurn := { playerIndex := nextIdx, actions := [] } }

/-- `TurnManager.recordAction(action)`: append to the current turn and
update the two cross-turn flags exactly as the source does (any draw of
more than one card sets `lastDrawFromDiscard`; any discard latches
`firstPlayerDiscarded`). -/
def TurnManager.recordAction (tm : TurnManager) (action : TurnAction) : TurnManager :=
  let tm := { tm with
    currentTurn := { tm.currentTurn with actions := tm.currentTurn.actions ++ [action] } }
  let tm :=
    if decide (action.type = ActionKind.draw) && decide (1 < action.details.drawCount.getD 0) then
      { tm with lastDrawFromDiscard := true }
    else tm
  if decide (action.type = ActionKind.discard) && !tm.firstPlayerDiscarded then
    { tm with firstPlayerDiscarded := true }
  else tm

/-- `TurnManager.setFirstPlayerDiscarded(b)`. -/
def TurnManager.setFirstPlayerDiscarded (tm : TurnManager) (b : Bool) : TurnManager :=
  { tm with firstPlayerDiscarded := b }

/-- `TurnManager.setLastDrawFromDiscard(b)`. -/
def TurnManager.setLastDrawFromDiscard (tm : TurnManager) (b : Bool) : TurnManager :=
  { tm with lastDrawFromDiscard := b }

/-- `TurnManager.reset()`. -/
def TurnManager.reset (_tm : TurnManager) : TurnManager :=
  { currentPlayerIndex := 0, direction := 1, turnHistory := [],
    currentTurn := { playerIndex := 0, actions := [] },
    firstPlayerDiscarded := false, lastDrawFromDiscard := false }

/-- The discard pile (`DiscardPile` in `Card.ts`): cards in push order
plus the `cardId → playerId` attribution record. -/
structure DiscardPile where
  cards : List Card := []
  discardedBy : List (CardId × String) := []
deriving DecidableEq, Repr, Inhabited

/-- JS object-key assignment `m[k] = v`: replace in place when the key is
present, otherwise append (insertion order preserved). -/
def assocSet (m : List (CardId × String)) (k : CardId) (v : String) :
    List (CardId × String) :=
  if m.any (fun kv => decide (kv.1 = k)) then
    m.map (fun kv => if decide (kv.1 = k) then (k, v) else kv)
  else m ++ [(k, v)]

/-- `DiscardPile.addCard(card, playerId)`. -/
def DiscardPile.addCard (d : DiscardPile) (card : Card) (playerId : String) :
    DiscardPile :=
  { cards := d.cards ++ [card],
    discardedBy := assocSet d.discardedBy card.cardId playerId }

/-- `DiscardPile.getCount()`. -/
def DiscardPile.getCount (d : DiscardPile) : Nat := d.cards.length

/-- `DiscardPile.getLastCards(count)`: `slice(-count)`.  `slice(-0)` is
`slice(0)`, which returns the whole array; for positive counts larger
than the pile, the start index clamps to 0. -/
def DiscardPile.getLastCards (d : DiscardPile) (count : Nat) : List Card :=
  if count = 0 then d.cards else d.cards.drop (d.cards.length - count)

/-- `DiscardPile.takeCards(count)`: `splice(-count)` — removes and
returns the last `count` cards, with the same `-0` and clamping
behaviour as `slice`. -/
def DiscardPile.takeCards (d : DiscardPile) (count : Nat) :
    List Card × DiscardPile :=
  if count = 0 then (d.cards, { d with cards := [] })
  else (d.cards.drop (d.cards.length - count),
        { d with cards := d.cards.take (d.cards.length - count) })

/-- The deck (`Deck` in `Card.ts`). -/
structure Deck where
  cards : List Card := []
deriving DecidableEq, Repr, Inhabited

/-- `Deck.draw(count)`: `splice(0, count)` — silently returns fewer cards
when the deck runs short. -/
def Deck.draw (d : Deck) (count : Nat) : List Card × Deck :=
  (d.cards.take count, ⟨d.cards.drop count⟩)

/-- `Deck.isEmpty()`. -/
def Deck.isEmpty (d : Deck) : Bool := decide (d.cards.length = 0)

/-- Game status. -/
inductive GameStatus where
  | lobby | playing | finished
deriving DecidableEq, Repr, Inhabited

/-- Round-over reason. -/
inductive GameOverReason where
  | memukul | deck_empty
deriving DecidableEq, Repr, Inhabited

/-- Turn phase. -/
inductive TurnPhase where
  | drawPhase | meldPhase | discardPhase
deriving DecidableEq, Repr, Inhabited

/-- The `lastAction` descriptor on `Game` (timestamp-based `meldId`
omitted). -/
structure LastAction where
  type : ActionKind
  playerId : String
  cardId : Option CardId := none
  drawCount : Option Nat := none
deriving DecidableEq, Repr, Inhabited

/-- The orchestrating game state (`Game.ts`).  The random `id` string and
`startTime` are omitted; no rule reads them. -/
structure Game where
  status : GameStatus := .lobby
  currentRound : Nat := 1
  players : List Player := []
  deck : Deck := {}
  discardPile : DiscardPile := {}
  jokerCards : List Card := []
  jokerReferenceCard : Option Card := none
  activeJokerValue : Option Rank := none
  currentTurnPhase : TurnPhase := .drawPhase
  turnManager : TurnManager := {}
  winner : Option String := none
  gameOverReason : Option GameOverReason := none
  lastAction : Option LastAction := none
deriving DecidableEq, Repr, Inhabited

/-- `Game.getPlayer(playerId)`. -/
def Game.getPlayer (g : Game) (playerId : String) : Option Player :=
  g.players.find? (fun p => decide (p.id = playerId))

/-- `Game.getCurrentPlayer()` can be `undefined` when the index is out of
range; the option is exposed so that property accesses on it can crash
faithfully. -/
def Game.getCurrentPlayer? (g : Game) : Option Player :=
  g.players.get? g.turnManager.currentPlayerIndex

/-- `Game.isPlaying()`. -/
def Game.isPlaying (g : Game) : Bool := decide (g.status = GameStatus.playing)

/-- `Game.isFinished()`. -/
def Game.isFinished (g : Game) : Bool := decide (g.status = GameStatus.finished)

/-- In-place mutation of the player object returned by
`Game.getPlayer`: rewrite the first player with the given id. -/
def updFirst : List Player → String → (Player → Player) → List Player
  | [], _, _ => []
  | q :: qs, pid, f =>
    if decide (q.id = pid) then f q :: qs else q :: updFirst qs pid f

/-- Apply an in-place player mutation inside the game. -/
def Game.updateFirst (g : Game) (pid : String) (f : Player → Player) : Game :=
  { g with players := updFirst g.players pid f }

/-- `Game.getTotalCardsInPlay()`: hand cards + meld cards + deck +
discard pile. -/
def Game.getTotalCardsInPlay (g : Game) : Nat :=
  let playerCards := (g.players.map (fun p => p.hand.length)).sum
  let meldCards := (g.players.map (fun p => (p.melds.map (fun m => m.cards.length)).sum)).sum
  playerCards + meldCards + g.deck.cards.length + g.discardPile.cards.length

/-- Outcome of running a piece of JavaScript: a normal value, a thrown
`Error` with its message, or an implicit runtime `TypeError`. -/
inductive JsResult (α : Type) where
  | ok : α → JsResult α
  | err : String → JsResult α
  | crash : JsResult α
deriving DecidableEq, Repr

/-- `ValidationResult` from `GameValidator.ts` (warnings unused). -/
structure ValidationResult where
  valid : Bool
  error : Option String := none
deriving DecidableEq, Repr, Inhabited

/-- JS property read `value.matchingCards`, where `value` is the plain
`Card[]` returned by `Player.getMatchingCardsSequence`: an `Array` has no
`matchingCards` property, so the destructuring
`const { matchingCards } = ...` in `GameValidator.validateDrawAction`
binds `undefined`, modelled as `none`. -/
def matchingCardsProp (_value : List Card) : Option (List Card) := none

/-- `GameValidator.validateDrawAction(game, player, drawFromDiscardCount)`.
Both branches destructure `{ matchingCards }` from the array returned by
`getMatchingCardsSequence` and then read `matchingCards.length`, which is
a `TypeError` on `undefined` (modelled by the `none ⇒ crash` arms); the
`some` arms transcribe the source's intended checks and are dead code.
The source interpolates the matching-card count into two of the error
messages; the interpolated number is dropped here. -/
def validateDrawAction (g : Game) (player : Player)
    (drawFromDiscardCount : Option Nat) : JsResult ValidationResult :=
  if !g.turnManager.firstPlayerDiscarded &&
      decide (g.turnManager.currentPlayerIndex = 0) &&
      decide (player.getHandSize = 8) then
    .ok ⟨false, some "Pemain pertama wajib membuang 1 kartu terlebih dahulu"⟩
  else
    match drawFromDiscardCount with
    | some dc =>
      match matchingCardsProp (player.getMatchingCardsSequence g.discardPile.cards) with
      | none => .crash
      | some matchingCards =>
        if decide (matchingCards.length = 0) then
          .ok ⟨false, some "Tidak ada pasangan kartu yang cocok di discard pile. Ambil dari deck."⟩
        else if !decide (dc = matchingCards.length) then
          .ok ⟨false, some "Harus mengambil semua kartu yang cocok"⟩
        else if decide (g.discardPile.getCount < dc) then
          .ok ⟨false, some "Tidak cukup kartu di discard pile"⟩
        else .ok ⟨true, none⟩
    | none =>
      match matchingCardsProp (player.getMatchingCardsSequence g.discardPile.cards) with
      | none => .crash
      | some matchingCards =>
        if decide (0 < matchingCards.length) then
          .ok ⟨false, some "Ada kartu di discard pile yang cocok. Ambil dari discard pile terlebih dahulu."⟩
        else if g.deck.isEmpty then
          .ok ⟨false, some "Deck kosong"⟩
        else .ok ⟨true, none⟩

/-- `GameValidator.validateDiscardAction(game, player, cardId)`. -/
def validateDiscardAction (g : Game) (player : Player) (cardId : Option CardId) :
    ValidationResult :=
  match cardId with
  | none => ⟨false, some "Pilih kartu untuk dibuang"⟩
  | some cid =>
    if !player.hasCard cid then ⟨false, some "Kartu tidak ada di tangan"⟩
    else if !g.turnManager.firstPlayerDiscarded &&
        decide (g.turnManager.currentPlayerIndex = 0) &&
        decide (player.getHandSize = 8) then
      -- the mandatory first discard, any card allowed
      ⟨true, none⟩
    else if g.turnManager.lastDrawFromDiscard then
      ⟨false, some "Anda harus menurunkan kombinasi terlebih dahulu setelah mengambil dari discard pile"⟩
    else ⟨true, none⟩

/-- `GameValidator.validateMeldAction(game, player, meldCards)`. -/
def validateMeldAction (_g : Game) (player : Player)
    (meldCards : Option (List Card)) : ValidationResult :=
  match meldCards with
  | none => ⟨false, some "Pilih kartu untuk meld"⟩
  | some mc =>
    if decide (mc.length = 0) then ⟨false, some "Pilih kartu untuk meld"⟩
    else if !mc.all (fun c => player.hasCard c.cardId) then
      ⟨false, some "Semua kartu harus ada di tangan"⟩
    else
      match isValidMeld mc with
      | none => ⟨false, some "Kombinasi tidak valid"⟩
      | some ty =>
        if !player.hasLaidRun && !decide (ty = MeldType.run) then
          ⟨false, some "Kombinasi pertama yang wajib diturunkan adalah Urutan (Run)"⟩
        else ⟨true, none⟩

/-- `GameValidator.validateAction(game, playerId, action, ...)`: turn
ownership, playing status, then the per-action validator.  When the
current player index is out of range `getCurrentPlayer()` is `undefined`
and reading `.id` from it is a `TypeError`. -/
def validateAction (g : Game) (playerId : String) (action : ActionKind)
    (cardId : Option CardId) (meldCards : Option (List Card))
    (drawFromDiscardCount : Option Nat) : JsResult ValidationResult :=
  match g.getCurrentPlayer? with
  | none => .crash
  | some currentPlayer =>
    if !decide (currentPlayer.id = playerId) then
      .ok ⟨false, some "Bukan giliran Anda"⟩
    else if !g.isPlaying then
      .ok ⟨false, some "Game belum dimulai"⟩
    else
      match action with
      | .draw => validateDrawAction g currentPlayer drawFromDiscardCount
      | .discard => .ok (validateDiscardAction g currentPlayer cardId)
      | .meld => .ok (validateMeldAction g currentPlayer meldCards)

/-- Result of `GameValidator.isGameOver(game)`. -/
structure GameOverStatus where
  gameOver : Bool
  winner : Option String := none
  reason : Option GameOverReason := none
deriving DecidableEq, Repr, Inhabited

/-- `GameValidator.isGameOver(game)`: the first player with
`hasWon()` (empty hand, at least one meld) wins by `memukul`; otherwise
an empty deck ends the round with `deck_empty` and no winner. -/
def isGameOver (g : Game) : GameOverStatus :=
  match g.players.find? (fun p => p.hasWon) with
  | some winningPlayer => ⟨true, some winningPlayer.id, some .memukul⟩
  | none =>
    if g.deck.isEmpty then ⟨true, none, some .deck_empty⟩
    else ⟨false, none, none⟩

/-- `GameValidator.canPlayerWin(player)`. -/
def canPlayerWin (player : Player) : ValidationResult :=
  if !decide (player.getHandSize = 1) then
    ⟨false, some "Pemain harus memiliki tepat 1 kartu untuk menang"⟩
  else if decide (player.melds.length = 0) then
    ⟨false, some "Pemain harus menurunkan minimal 1 kombinasi untuk menang"⟩
  else if !player.hasLaidRun then
    ⟨false, some "Pemain harus menurunkan minimal 1 Urutan untuk menang"⟩
  else ⟨true, none⟩

/-- `ScoreManager.calculateHandScore(hand, usedInMelds)`: non-jokers score
their `value`; a joker found (by id) among the meld cards scores +10, an
unmelded joker scores −25. -/
def calculateHandScore (hand usedInMelds : List Card) : Int :=
  hand.foldl
    (fun total card =>
      if card.isJoker then
        if usedInMelds.any (fun mc => decide (mc.cardId = card.cardId)) then
          total + 10
        else total - 25
      else total + (card.value : Int))
    0

/-- `ScoreManager.calculateMeldBonus(melds)`: +10 per meld, +5 extra for a
4-card meld. -/
def calculateMeldBonus (melds : List Meld) : Int :=
  melds.foldl (fun bonus m => bonus + 10 + (if decide (m.getSize = 4) then 5 else 0)) 0

/-- `ScoreManager.calculateWinningScore(finalCard)`. -/
def calculateWinningScore (finalCard : Card) : Nat := finalCard.getWinningValue

/-- One entry of `ScoreManager.calculateRoundScores`. -/
structure RoundScore where
  playerId : String
  handScore : Int
  meldBonus : Int
  totalScore : Int
deriving DecidableEq, Repr, Inhabited

/-- `ScoreManager.calculateRoundScores(game, winnerId)` (the `jokerGrant`
side output is not modelled; nothing in the engine consumes it). -/
def calculateRoundScores (g : Game) (winnerId : Option String) : List RoundScore :=
  g.players.map (fun player =>
    let usedInMelds := (player.melds.map (fun m => m.cards)).flatten
    let handScore := calculateHandScore player.hand usedInMelds
    let meldBonus := calculateMeldBonus player.melds
    let totalScore :=
      if decide (winnerId = some player.id) && decide (player.getHandSize = 1) then
        handScore + meldBonus + (calculateWinningScore (player.hand.getD 0 default) : Int)
      else handScore + meldBonus
    ⟨player.id, handScore, meldBonus, totalScore⟩)

/-- `Game.checkGameOver()`: once finished, nothing more happens;
otherwise consult `isGameOver` and, on a `deck_empty` ending, write every
player's round total into their score. -/
def checkGameOver (g : Game) : Game :=
  if g.isFinished then g
  else
    let st := isGameOver g
    if st.gameOver then
      let g1 := { g with status := .finished, winner := st.winner,
                         gameOverReason := st.reason }
      if decide (st.reason = some GameOverReason.deck_empty) then
        let scores := calculateRoundScores g1 none
        let setScore := fun (ps : List Player) (s : RoundScore) =>
          updFirst ps s.playerId (fun q => { q with score := s.totalScore })
        { g1 with players := scores.foldl setScore g1.players }
      else g1
    else g

/-- `cardIds.map(id => player.getHand().find(c => c.id === id)).filter(Boolean)`
from `Game.createMeld`. -/
def meldCardsOf (player : Player) (cardIds : List CardId) : List Card :=
  cardIds.filterMap (fun cid => player.hand.find? (fun c => decide (c.cardId = cid)))

/-- `Game.skipMeldPhase()`: advance `meldPhase → discardPhase` when in
meld phase, otherwise do nothing; never throws. -/
def Game.skipMeldPhase (g : Game) : JsResult Unit × Game :=
  (.ok (),
   if decide (g.currentTurnPhase = TurnPhase.meldPhase) then
     { g with currentTurnPhase := .discardPhase }
   else g)

/-- `Game.drawCard(playerId, fromDiscard, drawCount)`.  The guard
`fromDiscard && drawCount && drawCount > 0` treats a missing or zero
count as falsy (deck draw); the inner `isValidMeld(cardsToTake,
this.activeJokerValue)` call passes a second argument the one-parameter
function ignores. -/
def Game.drawCard (g : Game) (playerId : String) (fromDiscard : Bool)
    (drawCount : Option Nat) : JsResult Unit × Game :=
  if !decide (g.currentTurnPhase = TurnPhase.drawPhase) then
    (.err "Can only draw cards during draw phase", g)
  else
    match validateAction g playerId .draw none none drawCount with
    | .crash => (.crash, g)
    | .err e => (.err e, g)
    | .ok validation =>
      if !validation.valid then (.err (validation.error.getD ""), g)
      else
        match g.getPlayer playerId with
        | none => (.err "Player not found", g)
        | some _player =>
          if fromDiscard && decide (0 < drawCount.getD 0) then
            let dc := drawCount.getD 0
            if decide (dc < 1) || decide (3 < dc) then
              (.err "Can only take 1-3 cards from discard pile", g)
            else if decide (g.discardPile.getCount < dc) then
              (.err "Not enough cards in discard pile", g)
            else if decide (1 < dc) &&
                !(isValidMeld (g.discardPile.getLastCards dc)).isSome then
              (.err "Must be able to form a valid meld when taking multiple cards from discard pile", g)
            else
              let (drawnCards, pile') := g.discardPile.takeCards dc
              let g1 := { g with discardPile := pile',
                                 turnManager := g.turnManager.setLastDrawFromDiscard true }
              -- both the dc > 1 and the dc = 1 arm add the drawn cards to
              -- the hand (the dc > 1 arm also re-sets the flag, a no-op)
              let g2 := g1.updateFirst playerId (fun q => q.addCards drawnCards)
              let act : TurnAction :=
                ⟨.draw, playerId, { drawCount := some drawnCards.length }⟩
              let g3 := { g2 with turnManager := g2.turnManager.recordAction act }
              let la : LastAction := ⟨.draw, playerId, none, some drawnCards.length⟩
              let g4 := { g3 with lastAction := some la }
              let g5 := { g4 with currentTurnPhase := .meldPhase }
              (.ok (), checkGameOver g5)
          else
            let (drawnCards, deck') := g.deck.draw 1
            let g1 := { g with deck := deck',
                               turnManager := g.turnManager.setLastDrawFromDiscard false }
            let g2 := g1.updateFirst playerId (fun q => q.addCards drawnCards)
            let act : TurnAction :=
              ⟨.draw, playerId, { drawCount := some drawnCards.length }⟩
            let g3 := { g2 with turnManager := g2.turnManager.recordAction act }
            let la : LastAction := ⟨.draw, playerId, none, some drawnCards.length⟩
            let g4 := { g3 with lastAction := some la }
            let g5 := { g4 with currentTurnPhase := .meldPhase }
            (.ok (), checkGameOver g5)

/-- `Game.discardCard(playerId, cardId)`: the first player holding 8
cards may discard regardless of the nominal phase; on success the card
moves to the pile, a `canWin()` player immediately wins by Memukul and is
paid `calculateWinningScore` of the card just discarded, and otherwise
the turn advances. -/
def Game.discardCard (g : Game) (playerId : String) (cardId : CardId) :
    JsResult Unit × Game :=
  match g.getPlayer playerId with
  | none => (.err "Player not found", g)
  | some player =>
    let isFirstPlayerWithEightCards :=
      decide (player.getHandSize = 8) && !g.turnManager.firstPlayerDiscarded
    if !isFirstPlayerWithEightCards &&
        !decide (g.currentTurnPhase = TurnPhase.discardPhase) then
      (.err "Can only discard cards during discard phase", g)
    else
      match validateAction g playerId .discard (some cardId) none none with
      | .crash => (.crash, g)
      | .err e => (.err e, g)
      | .ok validation =>
        if !validation.valid then (.err (validation.error.getD ""), g)
        else
          match player.removeCard cardId with
          | (none, _) => (.err "Card not found in hand", g)
          | (some card, player') =>
            let g1 := g.updateFirst playerId (fun _ => player')
            let g2 := { g1 with discardPile := g1.discardPile.addCard card playerId }
            let g3 :=
              if isFirstPlayerWithEightCards then
                { g2 with turnManager := g2.turnManager.setFirstPlayerDiscarded true }
              else g2
            let payout := fun (q : Player) =>
              { q with score := q.score + (calculateWinningScore card : Int) }
            let g4 :=
              if player'.canWin then
                { g3 with winner := some playerId,
                          gameOverReason := some .memukul,
                          status := .finished,
                          players := updFirst g3.players playerId payout }
              else g3
            let act : TurnAction := ⟨.discard, playerId, { cardId := some cardId }⟩
            let g5 := { g4 with turnManager := g4.turnManager.recordAction act }
            let la : LastAction := ⟨.discard, playerId, some cardId, none⟩
            let g6 := { g5 with lastAction := some la }
            let g7 :=
              if !g6.isFinished then
                if isFirstPlayerWithEightCards then
                  { g6 with currentTurnPhase := .drawPhase }
                else
                  { g6 with turnManager := g6.turnManager.nextTurn g6.players.length,
                            currentTurnPhase := .drawPhase }
              else g6
            (.ok (), checkGameOver g7)

/-- `Game.createMeld(playerId, cardIds)`.  The cards are looked up in the
hand before validation; after validation they are removed from the hand,
the meld type is recomputed, and the meld is attached to the player. -/
def Game.createMeld (g : Game) (playerId : String) (cardIds : List CardId) :
    JsResult Unit × Game :=
  if !decide (g.currentTurnPhase = TurnPhase.meldPhase) then
    (.err "Can only create melds during meld phase", g)
  else
    match g.getPlayer playerId with
    | none => (.err "Player not found", g)
    | some player =>
      let meldCards := meldCardsOf player cardIds
      match validateAction g playerId .meld none (some meldCards) none with
      | .crash => (.crash, g)
      | .err e => (.err e, g)
      | .ok validation =>
        if !validation.valid then (.err (validation.error.getD ""), g)
        else
          -- (the lastDrawFromDiscard inspection in the source only logs)
          let (_, player') := player.removeCards cardIds
          let g1 := g.updateFirst playerId (fun _ => player')
          match isValidMeld meldCards with
          | none => (.err "Invalid meld", g1)
          | some ty =>
            let meld : Meld := ⟨ty, meldCards, playerId⟩
            let g2 := g1.updateFirst playerId (fun q => q.addMeld meld)
            let act : TurnAction := ⟨.meld, playerId, { cardIds := some cardIds }⟩
            let g3 := { g2 with turnManager := g2.turnManager.recordAction act }
            let la : LastAction := ⟨.meld, playerId, none, none⟩
            let g4 := { g3 with lastAction := some la }
            (.ok (), checkGameOver g4)

/-- A fresh seat for `new Player(id, name)`. -/
def mkPlayer (pid : String) : Player :=
  { id := pid, hand := [], melds := [], score := 0,
    ready := false, connected := true, hasLaidRun := false }

/-- The lobby game built by the `Game` constructor for the given player
ids (the constructor rejects any count other than 4; `ValidInit` carries
that side condition). -/
def lobbyGame (playerIds : List String) : Game :=
  { status := .lobby, currentRound := 1,
    players := playerIds.map mkPlayer,
    deck := ⟨standardDeck⟩, discardPile := {},
    jokerCards := [], jokerReferenceCard := none, activeJokerValue := none,
    currentTurnPhase := .drawPhase, turnManager := {},
    winner := none, gameOverReason := none, lastAction := none }

/-- The deck remaining after `Game.setupJokerSystem` removes the
reference card (`filter(card => card.id !== jokerDeterminer.id)`). -/
def remainingAfterJoker (allCards : List Card) (refIndex : Nat) : List Card :=
  let jokerDeterminer := allCards.getD refIndex default
  allCards.filter (fun c => !decide (c.cardId = jokerDeterminer.cardId))

/-- The deck contents produced by `this.deck = new Deck();
this.deck.addCards(remainingCards)` in `Game.setupJokerSystem`: the
`Deck` constructor runs `initialize()`, filling the new deck with a
fresh 52-card standard deck, and `addCards` then *appends* the 51
surviving originals — 103 cards in total, including a fresh copy of the
reference card's id. -/
def rebuiltJokerDeck (allCards : List Card) (refIndex : Nat) : List Card :=
  standardDeck ++ remainingAfterJoker allCards refIndex

/-- `Game.setupJokerSystem()`: pick the reference card at `refIndex` and
record the other same-rank cards as `jokerCards` (their `isJoker` flags
are not touched).  The deck is then rebuilt as `new Deck()` followed by
`addCards(remainingCards)` — i.e. `rebuiltJokerDeck`, 52 fresh standard
cards plus the 51 surviving originals — and shuffled; the shuffle
outcome `shuffled2` is a parameter constrained by `ValidInit`. -/
def setupJokerSystem (g : Game) (refIndex : Nat) (shuffled2 : List Card) : Game :=
  let allCards := g.deck.cards
  let jokerDeterminer := allCards.getD refIndex default
  let activeJokerCards := allCards.filter (fun c => decide (c.rank = jokerDeterminer.rank))
  { g with deck := ⟨shuffled2⟩,
           jokerReferenceCard := some jokerDeterminer,
           activeJokerValue := some jokerDeterminer.rank,
           jokerCards := activeJokerCards.filter
             (fun c => !decide (c.cardId = jokerDeterminer.cardId)) }

/-- The `players.forEach` loop of `Game.dealCards`: seat `firstIdx` draws
8 cards, every other seat draws 7; each hand is sorted after dealing. -/
def dealLoop : List Player → List Card → Nat → Nat → List Player × List Card
  | [], deckCards, _, _ => ([], deckCards)
  | p :: rest, deckCards, seat, firstIdx =>
    let cardsCount := if decide (seat = firstIdx) then 8 else 7
    let cards := deckCards.take cardsCount
    let deck' := deckCards.drop cardsCount
    let p' := Player.sortHand { p with hand := p.hand ++ cards }
    let (ps, deckF) := dealLoop rest deck' (seat + 1) firstIdx
    (p' :: ps, deckF)

/-- The random inputs consumed by `Game.start()`: the two shuffle
outcomes, the joker reference index and the starting seat. -/
structure InitParams where
  shuffled1 : List Card
  refIndex : Nat
  shuffled2 : List Card
  firstPlayerIndex : Nat
deriving DecidableEq, Repr

/-- Well-formedness of the random inputs: four seats, the first shuffle
permutes the standard deck, the reference index is in range, the second
shuffle permutes the rebuilt 103-card deck (52 fresh cards from the
`new Deck()` re-initialization plus the 51 surviving originals), the
starting seat is in range. -/
def ValidInit (playerIds : List String) (prm : InitParams) : Prop :=
  playerIds.length = 4 ∧
  prm.shuffled1.Perm standardDeck ∧
  prm.refIndex < 52 ∧
  prm.shuffled2.Perm (rebuiltJokerDeck prm.shuffled1 prm.refIndex) ∧
  prm.firstPlayerIndex < 4

/-- `Game.start()` followed by `initializeGame()`: status becomes
`playing`; the deck is shuffled (`shuffled1`), the joker system is set
up, `dealCards` picks the starting seat and deals 8/7/7/7, the turn
manager is `reset()`, and the opening phase is `discardPhase` exactly
when the player at the (reset) current index holds 8 cards. -/
def startedGame (playerIds : List String) (prm : InitParams) : Game :=
  let g0 := { lobbyGame playerIds with status := GameStatus.playing,
                                       deck := ⟨prm.shuffled1⟩ }
  let g1 := setupJokerSystem g0 prm.refIndex prm.shuffled2
  -- dealCards: select the starting seat, then deal around the table
  let tm1 := g1.turnManager.setCurrentPlayerIndex prm.firstPlayerIndex g1.players.length
  let (players', deckCards') := dealLoop g1.players g1.deck.cards 0 prm.firstPlayerIndex
  -- reset() — this sets the current player index back to 0
  let g2 := { g1 with players := players', deck := ⟨deckCards'⟩,
                      turnManager := tm1.reset }
  let firstPlayer := g2.players.getD g2.turnManager.currentPlayerIndex default
  { g2 with currentTurnPhase :=
      if decide (firstPlayer.getHandSize = 8) then TurnPhase.discardPhase
      else TurnPhase.drawPhase }

/-- The four mutating entry points of the engine, with their arguments. -/
inductive GameAction where
  | draw (playerId : String) (fromDiscard : Bool) (drawCount : Option Nat)
  | discard (playerId : String) (cardId : CardId)
  | meld (playerId : String) (cardIds : List CardId)
  | skipMeld
deriving DecidableEq, Repr

/-- Dispatch an action to its entry point. -/
def applyAction (g : Game) : GameAction → JsResult Unit × Game
  | .draw playerId fromDiscard drawCount => g.drawCard playerId fromDiscard drawCount
  | .discard playerId cardId => g.discardCard playerId cardId
  | .meld playerId cardIds => g.createMeld playerId cardIds
  | .skipMeld => g.skipMeldPhase

/-- States reachable from some well-formed started 4-player game by any
sequence of entry-point invocations.  A rejected invocation leaves the
`Game` object in whatever state it had when the exception escaped, so the
step always moves to the second component of `applyAction`. -/
inductive Reachable (playerIds : List String) : Game → Prop where
  | init (prm : InitParams) (h : ValidInit playerIds prm) :
      Reachable playerIds (startedGame playerIds prm)
  | step {g : Game} (a : GameAction) (hg : Reachable playerIds g) :
      Reachable playerIds (applyAction g a).2

/-- All cards currently in circulation: deck, discard pile, hands and
declared melds (the containers summed by `getTotalCardsInPlay`). -/
def circulatingCards (g : Game) : List Card :=
  g.deck.cards ++ g.discardPile.cards ++
    (g.players.map (fun p => p.hand)).flatten ++
    (g.players.map (fun p => (p.melds.map (fun m => m.cards)).flatten)).flatten

/-- Four seats for the concrete scenarios. -/
def ids4 : List String := ["p1", "p2", "p3", "p4"]

/-- Concrete random inputs for one `start()` outcome: identity shuffles
(a permutation), reference index 0 (the A♥), starting seat 2. -/
def prmSeat2 : InitParams :=
  { shuffled1 := standardDeck, refIndex := 0,
    shuffled2 := rebuiltJokerDeck standardDeck 0, firstPlayerIndex := 2 }

/-- A declared three-card run meld used by several scenarios. -/
def runMeld1 : Meld :=
  ⟨.run, [⟨.clubs, .n2, false⟩, ⟨.clubs, .n3, false⟩, ⟨.clubs, .n4, false⟩], "p1"⟩

/-- A playing state in discard phase: the current player `p1` holds
9♠ and A♥, has declared a run, and the deck is nonempty. -/
def gMemukul : Game :=
  { status := .playing, currentRound := 1,
    players := [{ id := "p1", hand := [⟨.spades, .n9, false⟩, ⟨.hearts, .A, false⟩],
                  melds := [runMeld1], score := 0, hasLaidRun := true },
                mkPlayer "p2", mkPlayer "p3", mkPlayer "p4"],
    deck := ⟨[⟨.diamonds, .K, false⟩]⟩, discardPile := {},
    jokerCards := [], jokerReferenceCard := none, activeJokerValue := none,
    currentTurnPhase := .discardPhase,
    turnManager := { currentPlayerIndex := 0, firstPlayerDiscarded := true },
    winner := none, gameOverReason := none, lastAction := none }

/-- The same state in draw phase, for draw-action scenarios. -/
def gDrawTurn : Game := { gMemukul with currentTurnPhase := .drawPhase }

/-- C1.  The claim says the Memukul winner's score rises by the last-card
value of the single card *remaining in their hand*.  The code instead
pays `calculateWinningScore` of the card just *discarded*
(`Game.discardCard` passes `card`, the removed card, to the scorer).
Discarding A♥ out of the hand {9♠, A♥} wins by Memukul with 9♠ as the
remaining card, yet the score rises by 150 (the Ace's value), not by the
9's value 50 — so discarding down to a single non-joker 9 does not
increase the score by 50 here. -/
theorem c1_memukul_pays_discarded_card :
    (gMemukul.discardCard "p1" (Suit.hearts, Rank.A)).1 = JsResult.ok () ∧
    (gMemukul.discardCard "p1" (Suit.hearts, Rank.A)).2.winner = some "p1" ∧
    (gMemukul.discardCard "p1" (Suit.hearts, Rank.A)).2.gameOverReason =
      some GameOverReason.memukul ∧
    ((gMemukul.discardCard "p1" (Suit.hearts, Rank.A)).2.getPlayer "p1").map
        (fun p => p.hand) = some [⟨Suit.spades, Rank.n9, false⟩] ∧
    Card.getWinningValue ⟨Suit.spades, Rank.n9, false⟩ = 50 ∧
    ((gMemukul.discardCard "p1" (Suit.hearts, Rank.A)).2.getPlayer "p1").map
        (fun p => p.score) = some 150 := by
  decide

/-- C2.  The claim says `{5♠, 6♠, joker-as-7♠, 8♠}` validates as a Run,
and more generally that consecutive same-suit candidates validate.
`isValidRun` sorts and steps by `card.value`, the scoring value under
which every rank 2–10 is worth 5, so the consecutive-sequence check
`curr.value === prev.value + 1` fails for these candidates: the cited
4-card joker candidate is rejected (and is no Set either), and even the
plain run 5♠ 6♠ 7♠ is rejected. -/
theorem c2_consecutive_run_rejected :
    isValidRun [⟨Suit.spades, Rank.n5, false⟩, ⟨Suit.spades, Rank.n6, false⟩,
                ⟨Suit.spades, Rank.n7, true⟩, ⟨Suit.spades, Rank.n8, false⟩] = false ∧
    isValidMeld [⟨Suit.spades, Rank.n5, false⟩, ⟨Suit.spades, Rank.n6, false⟩,
                 ⟨Suit.spades, Rank.n7, true⟩, ⟨Suit.spades, Rank.n8, false⟩] = none ∧
    isValidRun [⟨Suit.spades, Rank.n5, false⟩, ⟨Suit.spades, Rank.n6, false⟩,
                ⟨Suit.spades, Rank.n7, false⟩] = false := by
  decide

/-- C3.  The claim says every `drawCard` invocation either draws or
reports a recoverable validation error, and in particular that
`validateDrawAction` never hits a runtime type error.  But
`validateDrawAction` destructures `{ matchingCards }` from the plain
array returned by `Player.getMatchingCardsSequence`, binding `undefined`,
and then reads `.length` — a `TypeError` — so in this playing state, on
the current player's turn in draw phase, both the deck draw and the
discard-pile draw crash rather than report a validation error (the state
is left unchanged only because the crash precedes any mutation). -/
theorem c3_draw_validation_crashes :
    (gDrawTurn.drawCard "p1" false none).1 = JsResult.crash ∧
    (gDrawTurn.drawCard "p1" true (some 2)).1 = JsResult.crash ∧
    validateAction gDrawTurn "p1" ActionKind.draw none none none = JsResult.crash ∧
    (gDrawTurn.drawCard "p1" false none).2 = gDrawTurn := by
  decide

/-- C7.  The claim says that after `start()` the turn manager's current
index equals the randomly chosen starting seat, making the 8-card player
the current player.  In the code, `dealCards` stores the chosen seat via
`setCurrentPlayerIndex` and deals that seat 8 cards, but `initializeGame`
then calls `turnManager.reset()`, which forces the index back to 0: with
chosen seat 2 the hands are `[7, 7, 8, 7]`, the current index is 0 (not
2), and the opening phase is `drawPhase` because seat 0 holds only 7
cards.  `firstPlayerDiscarded = false` does hold. -/
theorem c7_reset_clobbers_starting_seat :
    (startedGame ids4 prmSeat2).players.map (fun p => p.hand.length) = [7, 7, 8, 7] ∧
    (startedGame ids4 prmSeat2).turnManager.currentPlayerIndex = 0 ∧
    prmSeat2.firstPlayerIndex = 2 ∧
    (startedGame ids4 prmSeat2).turnManager.firstPlayerDiscarded = false ∧
    (startedGame ids4 prmSeat2).currentTurnPhase = TurnPhase.drawPhase := by
  decide

/-- C8.  The claim says exactly 3 cards in circulation carry
`isJoker = true`, and that the reference card's identity appears in none
of deck/hands/pile/melds.  Both parts fail after `start()`:
`setupJokerSystem` records the three rank-mates of the reference card in
`jokerCards` but never marks any card's `isJoker` flag
(`Card.createJoker` is not called on this path), so no card in
circulation has `isJoker = true`; and the `new Deck()` re-initialization
inside `setupJokerSystem` puts a fresh copy of the reference card's id
back into the deck, so the reference identity *is* in circulation.  The
remaining conjunct of the claim does hold: the three `jokerCards` share
the reference card's rank. -/
theorem c8_no_isjoker_cards_in_circulation :
    (circulatingCards (startedGame ids4 prmSeat2)).filter (fun c => c.isJoker) = [] ∧
    (startedGame ids4 prmSeat2).jokerCards.length = 3 ∧
    (startedGame ids4 prmSeat2).jokerCards.all
      (fun c => decide (some c.rank =
        ((startedGame ids4 prmSeat2).jokerReferenceCard).map Card.rank)) = true ∧
    ((circulatingCards (startedGame ids4 prmSeat2)).any
      (fun c => decide (some c.cardId =
        ((startedGame ids4 prmSeat2).jokerReferenceCard).map Card.cardId))) = true := by
  decide

/-- Every card produced by the `createMeld` hand lookup is in the hand,
so the validator's all-cards-in-hand check accepts it. -/
lemma meldCardsOf_all_in_hand (player : Player) (cardIds : List CardId) :
    (meldCardsOf player cardIds).all (fun c => player.hasCard c.cardId) = true := by
  rw [List.all_eq_true]
  intro c hc
  rw [meldCardsOf, List.mem_filterMap] at hc
  obtain ⟨cid, _, hfind⟩ := hc
  have hmem := List.mem_of_find?_eq_some hfind
  unfold Player.hasCard
  rw [List.any_eq_true]
  exact ⟨c, hmem, by simp⟩

/-- The four ace cards, none marked joker. -/
def acesCards : List Card :=
  [⟨.spades, .A, false⟩, ⟨.hearts, .A, false⟩, ⟨.diamonds, .A, false⟩, ⟨.clubs, .A, false⟩]

/-- A meld-phase state whose current player holds the four aces and has
not yet declared any meld. -/
def gAces : Game :=
  { gMemukul with
      players := [{ id := "p1", hand := acesCards, melds := [], score := 0,
                    hasLaidRun := false },
                  mkPlayer "p2", mkPlayer "p3", mkPlayer "p4"],
      currentTurnPhase := .meldPhase }

/-- Three same-rank, distinct-suit cards: a structurally valid Set that
is not a valid run under `isValidRun`. -/
def set3Cards : List Card :=
  [⟨.hearts, .n3, false⟩, ⟨.diamonds, .n3, false⟩, ⟨.spades, .n3, false⟩]

/-- A player holding `set3Cards` with no declared meld. -/
def set3Player : Player :=
  { id := "p1", hand := set3Cards, melds := [], score := 0, hasLaidRun := false }

/-- Meld-phase state for `set3Player` before any run is declared. -/
def gSet3 : Game :=
  { gMemukul with
      players := [set3Player, mkPlayer "p2", mkPlayer "p3", mkPlayer "p4"],
      currentTurnPhase := .meldPhase }

/-- The same player after declaring a run. -/
def set3RunPlayer : Player :=
  { set3Player with melds := [runMeld1], hasLaidRun := true }

/-- Meld-phase state for `set3RunPlayer` (run already declared). -/
def gSet3Run : Game :=
  { gSet3 with
      players := [set3RunPlayer, mkPlayer "p2", mkPlayer "p3", mkPlayer "p4"] }

/-- C6 counterexample.  The claim says that while `hasLaidRun` is false,
`createMeld` with any structurally valid Set (valid per `isValidSet`, all
cards in hand, meld phase, current player) is rejected with the
first-meld-must-be-a-run error.  The four-ace candidate is valid per
`isValidSet`, yet `isValidMeld` classifies it as a Run (the ace special
case), so this `createMeld` call succeeds although the player has never
declared a run. -/
theorem c6_counterexample :
    isValidSet acesCards = true ∧
    (gAces.getPlayer "p1").map (fun p => p.hasLaidRun) = some false ∧
    (gAces.createMeld "p1" (acesCards.map Card.cardId)).1 = JsResult.ok () := by
  decide

/-- C6 (amended).  For a candidate that is valid per `isValidSet` and
*not* valid per `isValidRun` (this excludes the four-ace candidate and
one-non-joker-plus-jokers candidates, which `isValidMeld` classifies as
Runs), `createMeld` on the current player's turn in meld phase is
rejected with the dedicated first-meld-must-be-a-run error and leaves the
state unchanged while `hasLaidRun` is false, and succeeds once
`hasLaidRun` is true. -/
theorem c6_run_before_set_amended (g : Game) (pid : String) (cardIds : List CardId)
    (player : Player)
    (hcur : g.getCurrentPlayer? = some player)
    (hid : player.id = pid)
    (hfind : g.getPlayer pid = some player)
    (hplaying : g.status = GameStatus.playing)
    (hphase : g.currentTurnPhase = TurnPhase.meldPhase)
    (hne : meldCardsOf player cardIds ≠ [])
    (hset : isValidSet (meldCardsOf player cardIds) = true)
    (hrun : isValidRun (meldCardsOf player cardIds) = false) :
    (player.hasLaidRun = false →
      (g.createMeld pid cardIds).1 =
        JsResult.err "Kombinasi pertama yang wajib diturunkan adalah Urutan (Run)" ∧
      (g.createMeld pid cardIds).2 = g) ∧
    (player.hasLaidRun = true → (g.createMeld pid cardIds).1 = JsResult.ok ()) := by
  have hall := meldCardsOf_all_in_hand player cardIds
  have hlen : (meldCardsOf player cardIds).length ≠ 0 := by
    simpa [List.length_eq_zero] using hne
  have hmeld : isValidMeld (meldCardsOf player cardIds) = some MeldType.set := by
    unfold isValidMeld
    rw [hrun, hset]
    simp
  have hval : validateMeldAction g player (some (meldCardsOf player cardIds)) =
      (if player.hasLaidRun then (⟨true, none⟩ : ValidationResult)
       else ⟨false, some "Kombinasi pertama yang wajib diturunkan adalah Urutan (Run)"⟩) := by
    unfold validateMeldAction
    cases h : player.hasLaidRun <;> simp [hlen, hall, hmeld, h]
  have hva : validateAction g pid ActionKind.meld none (some (meldCardsOf player cardIds)) none =
      JsResult.ok (if player.hasLaidRun then (⟨true, none⟩ : ValidationResult)
       else ⟨false, some "Kombinasi pertama yang wajib diturunkan adalah Urutan (Run)"⟩) := by
    unfold validateAction
    rw [hcur]
    simp [hid, Game.isPlaying, hplaying, hval]
  constructor
  · intro hlaid
    unfold Game.createMeld
    simp [hphase, hfind, hva, hlaid]
  · intro hlaid
    unfold Game.createMeld
    simp [hphase, hfind, hva, hlaid, hmeld]

/-- C6 witness: the amended theorem applied to the concrete pre-run and
post-run states around the Set `3♥ 3♦ 3♠`. -/
theorem c6_witness :
    (isValidSet (meldCardsOf set3Player (set3Cards.map Card.cardId)) = true ∧
     (gSet3.createMeld "p1" (set3Cards.map Card.cardId)).1 =
       JsResult.err "Kombinasi pertama yang wajib diturunkan adalah Urutan (Run)" ∧
     (gSet3.createMeld "p1" (set3Cards.map Card.cardId)).2 = gSet3) ∧
    (gSet3Run.createMeld "p1" (set3Cards.map Card.cardId)).1 = JsResult.ok () :=
  ⟨⟨by decide,
    (c6_run_before_set_amended gSet3 "p1" (set3Cards.map Card.cardId) set3Player
      (by decide) (by decide) (by decide) (by decide) (by decide) (by decide)
      (by decide) (by decide)).1 (by decide)⟩,
   (c6_run_before_set_amended gSet3Run "p1" (set3Cards.map Card.cardId) set3RunPlayer
      (by decide) (by decide) (by decide) (by decide) (by decide) (by decide)
      (by decide) (by decide)).2 (by decide)⟩

/-- A meld-phase state where melding was compulsory: the preceding draw
was from the discard pile (`lastDrawFromDiscard = true`). -/
def gSkipAfterPileDraw : Game :=
  { gMemukul with
      currentTurnPhase := .meldPhase,
      turnManager := { currentPlayerIndex := 0, firstPlayerDiscarded := true,
                       lastDrawFromDiscard := true } }

/-- C9 counterexample.  The claim says `skipMeldPhase` is rejected, with
the phase left unchanged, when the preceding draw was from the discard
pile.  In this state the last draw was from the pile, yet the call
reports no error and advances the phase to `discardPhase`. -/
theorem c9_counterexample :
    gSkipAfterPileDraw.turnManager.lastDrawFromDiscard = true ∧
    gSkipAfterPileDraw.currentTurnPhase = TurnPhase.meldPhase ∧
    gSkipAfterPileDraw.skipMeldPhase.1 = JsResult.ok () ∧
    gSkipAfterPileDraw.skipMeldPhase.2.currentTurnPhase = TurnPhase.discardPhase := by
  decide

/-- C9 (amended).  `skipMeldPhase` never rejects: it advances the phase
from `meldPhase` to `discardPhase` whenever the current phase is
`meldPhase` — regardless of whether the preceding draw came from the deck
or the discard pile — and leaves the state unchanged otherwise.  (The
compulsory meld after a discard-pile draw is enforced elsewhere, at
discard time.) -/
theorem c9_skip_meld_amended (g : Game) :
    g.skipMeldPhase =
      (JsResult.ok (),
        if g.currentTurnPhase = TurnPhase.meldPhase then
          { g with currentTurnPhase := TurnPhase.discardPhase }
        else g) := by
  unfold Game.skipMeldPhase
  by_cases h : g.currentTurnPhase = TurnPhase.meldPhase <;> simp [h]

/-- A winner by empty hand who never declared a run: one declared Set
meld, zero cards in hand, `hasLaidRun = false`. -/
def noRunWinnerPlayer : Player :=
  { id := "p1", hand := [], melds := [⟨.set, set3Cards, "p1"⟩],
    score := 0, hasLaidRun := false }

/-- State whose first player is `noRunWinnerPlayer`. -/
def gNoRunWinner : Game :=
  { gMemukul with
      players := [noRunWinnerPlayer, mkPlayer "p2", mkPlayer "p3", mkPlayer "p4"] }

/-- C10.  `isGameOver`, re-checked by `checkGameOver` after every action,
declares a `memukul` win as soon as some player has an empty hand and at
least one declared meld (`Player.hasWon` checks nothing else — in
particular not `hasLaidRun`), the winner being the first such player.
Concretely: a player with an empty hand, one Set meld and
`hasLaidRun = false` is declared the memukul winner; and a player who
melds away their last four cards (the aces) during meld phase ends the
round immediately in their favor with `status = finished`,
`winner = p1`, `reason = memukul`. -/
theorem c10_zero_card_memukul :
    (∀ (g : Game) (p : Player), p ∈ g.players → p.hasWon = true →
      (isGameOver g).gameOver = true ∧
      (isGameOver g).reason = some GameOverReason.memukul ∧
      ∃ q ∈ g.players, q.hasWon = true ∧ (isGameOver g).winner = some q.id) ∧
    ((gNoRunWinner.getPlayer "p1").map (fun p => p.hasLaidRun) = some false ∧
      isGameOver gNoRunWinner =
        ⟨true, some "p1", some GameOverReason.memukul⟩) ∧
    ((gAces.createMeld "p1" (acesCards.map Card.cardId)).1 = JsResult.ok () ∧
      (gAces.createMeld "p1" (acesCards.map Card.cardId)).2.status = GameStatus.finished ∧
      (gAces.createMeld "p1" (acesCards.map Card.cardId)).2.winner = some "p1" ∧
      (gAces.createMeld "p1" (acesCards.map Card.cardId)).2.gameOverReason =
        some GameOverReason.memukul) := by
  refine ⟨?_, by decide, by decide⟩
  intro g p hmem hwon
  unfold isGameOver
  cases hf : g.players.find? (fun q => q.hasWon) with
  | none =>
    have := List.find?_eq_none.1 hf p hmem
    rw [hwon] at this
    exact absurd rfl this
  | some w =>
    exact ⟨rfl, rfl, w, List.mem_of_find?_eq_some hf, List.find?_some hf, rfl⟩

/-- C10 witness: the universal component applied to the concrete
no-run winner state. -/
theorem c10_witness :
    (noRunWinnerPlayer ∈ gNoRunWinner.players ∧ noRunWinnerPlayer.hasWon = true) ∧
    ((isGameOver gNoRunWinner).gameOver = true ∧
     (isGameOver gNoRunWinner).reason = some GameOverReason.memukul ∧
     ∃ q ∈ gNoRunWinner.players, q.hasWon = true ∧
       (isGameOver gNoRunWinner).winner = some q.id) :=
  ⟨⟨by decide, by decide⟩,
   c10_zero_card_memukul.1 gNoRunWinner noRunWinnerPlayer (by decide) (by decide)⟩

/-- Draw validation never succeeds: it reports the first-player
obligation, or reaches the `{ matchingCards }` destructuring and
crashes.  (Both turn-ownership and status rejections also surface as
`valid = false` results.) -/
lemma validateAction_draw_cases (g : Game) (pid : String) (cnt : Option Nat) :
    validateAction g pid ActionKind.draw none none cnt = JsResult.crash ∨
    ∃ msg, validateAction g pid ActionKind.draw none none cnt =
      JsResult.ok ⟨false, some msg⟩ := by
  unfold validateAction
  cases hc : g.getCurrentPlayer? with
  | none => exact Or.inl rfl
  | some cur =>
    by_cases hid : cur.id = pid
    · by_cases hpl : g.isPlaying = true
      · simp only [hid, decide_True, Bool.not_true, if_neg, hpl]
        unfold validateDrawAction
        by_cases h8 : (!g.turnManager.firstPlayerDiscarded &&
            decide (g.turnManager.currentPlayerIndex = 0) &&
            decide (cur.getHandSize = 8)) = true
        · simp [h8]
        · simp only [h8]
          cases cnt <;> simp [matchingCardsProp]
      · simp [hid, hpl]
    · simp [hid]

/-- `drawCard` never changes the state: every invocation is rejected
before any mutation (wrong phase, a reported validation failure, or the
validation-time crash of `validateDrawAction`). -/
lemma drawCard_snd (g : Game) (pid : String) (fd : Bool) (cnt : Option Nat) :
    (g.drawCard pid fd cnt).2 = g := by
  unfold Game.drawCard
  by_cases hph : (!decide (g.currentTurnPhase = TurnPhase.drawPhase)) = true
  · simp [hph]
  · simp only [hph, if_neg, Bool.false_eq_true, not_false_eq_true]
    rcases validateAction_draw_cases g pid cnt with h | ⟨msg, h⟩ <;> simp [h]

/-- `discardCard` either succeeds or leaves the state untouched: every
rejection happens before the first mutation. -/
lemma discardCard_cases (g : Game) (pid : String) (cid : CardId) :
    (g.discardCard pid cid).1 = JsResult.ok () ∨ (g.discardCard pid cid).2 = g := by
  unfold Game.discardCard
  cases hp : g.getPlayer pid with
  | none => exact Or.inr rfl
  | some player =>
    dsimp only
    split
    · exact Or.inr rfl
    · cases hv : validateAction g pid ActionKind.discard (some cid) none none with
      | crash => exact Or.inr rfl
      | err e => exact Or.inr rfl
      | ok vr =>
        dsimp only
        split
        · exact Or.inr rfl
        · cases hr : player.removeCard cid with
          | mk c p' =>
            cases c with
            | none => exact Or.inr rfl
            | some card => exact Or.inl rfl

/-- If meld validation reports success, the meld candidate really
validates, so `createMeld`'s post-removal revalidation cannot fail. -/
lemma validateAction_meld_valid (g : Game) (pid : String) (mc : List Card)
    (vr : ValidationResult)
    (h : validateAction g pid ActionKind.meld none (some mc) none = JsResult.ok vr)
    (hv : vr.valid = true) : (isValidMeld mc).isSome := by
  unfold validateAction at h
  cases hc : g.getCurrentPlayer? with
  | none =>
    rw [hc] at h
    exact (JsResult.noConfusion h)
  | some cur =>
    rw [hc] at h
    dsimp only at h
    split at h
    · cases h
      exact absurd hv (by decide)
    · split at h
      · cases h
        exact absurd hv (by decide)
      · have hme : validateMeldAction g cur (some mc) = vr := by
          injection h
        unfold validateMeldAction at hme
        dsimp only at hme
        split at hme
        · cases hme
          exact absurd hv (by decide)
        · split at hme
          · cases hme
            exact absurd hv (by decide)
          · cases him : isValidMeld mc with
            | none =>
              rw [him] at hme
              dsimp only at hme
              cases hme
              exact absurd hv (by decide)
            | some ty => rfl

/-- `createMeld` either succeeds or leaves the state untouched; in
particular the post-removal `Invalid meld` rejection is unreachable once
validation has passed. -/
lemma createMeld_cases (g : Game) (pid : String) (cardIds : List CardId) :
    (g.createMeld pid cardIds).1 = JsResult.ok () ∨ (g.createMeld pid cardIds).2 = g := by
  unfold Game.createMeld
  split
  · exact Or.inr rfl
  · cases hp : g.getPlayer pid with
    | none => exact Or.inr rfl
    | some player =>
      dsimp only
      cases hv : validateAction g pid ActionKind.meld none
          (some (meldCardsOf player cardIds)) none with
      | crash => exact Or.inr rfl
      | err e => exact Or.inr rfl
      | ok vr =>
        dsimp only
        split
        · exact Or.inr rfl
        · rename_i hvv
          have hvalid : vr.valid = true := by simpa using hvv
          have hsome := validateAction_meld_valid g pid _ vr hv hvalid
          cases hr : player.removeCards cardIds with
          | mk removed player' =>
            cases him : isValidMeld (meldCardsOf player cardIds) with
            | none =>
              rw [him] at hsome
              exact absurd hsome (by decide)
            | some ty => exact Or.inl rfl

/-- C4.  Atomicity of rejections: whenever any of the four entry points
(`drawCard`, `discardCard`, `createMeld`, `skipMeldPhase`) does not
succeed — it throws an explicit error or crashes — the resulting game
state (deck, discard pile, hands, melds, scores, flags, turn manager,
status, everything in `Game`) is exactly the state before the call. -/
theorem c4_rejected_actions_leave_state_unchanged (g : Game) (a : GameAction)
    (h : (applyAction g a).1 ≠ JsResult.ok ()) : (applyAction g a).2 = g := by
  cases a with
  | draw pid fd cnt => exact drawCard_snd g pid fd cnt
  | discard pid cid =>
    rcases discardCard_cases g pid cid with hok | hst
    · exact absurd hok h
    · exact hst
  | meld pid cardIds =>
    rcases createMeld_cases g pid cardIds with hok | hst
    · exact absurd hok h
    · exact hst
  | skipMeld => exact absurd rfl h

/-- A lobby game (not yet started), on which every action is rejected. -/
def gLobby : Game := lobbyGame ids4

/-- C4 witness: a rejected discard on a lobby game leaves it unchanged. -/
theorem c4_witness :
    (applyAction gLobby (GameAction.discard "p1" (Suit.hearts, Rank.A))).1 ≠
      JsResult.ok () ∧
    (applyAction gLobby (GameAction.discard "p1" (Suit.hearts, Rank.A))).2 = gLobby :=
  ⟨by decide,
   c4_rejected_actions_leave_state_unchanged gLobby
     (GameAction.discard "p1" (Suit.hearts, Rank.A)) (by decide)⟩

def handsTotal (ps : List Player) : Nat := (ps.map (fun p => p.hand.length)).sum

def meldCardsCount (p : Player) : Nat := (p.melds.map (fun m => m.cards.length)).sum

def meldsTotal (ps : List Player) : Nat := (ps.map meldCardsCount).sum

lemma total_eq (g : Game) : g.getTotalCardsInPlay =
    handsTotal g.players + meldsTotal g.players +
      g.deck.cards.length + g.discardPile.cards.length := rfl

lemma insertStable_length (le : α → α → Bool) (a : α) (l : List α) :
    (insertStable le a l).length = l.length + 1 := by
  induction l with
  | nil => rfl
  | cons b bs ih =>
    unfold insertStable
    split <;> simp [ih]

lemma stableSortBy_length (le : α → α → Bool) (l : List α) :
    (stableSortBy le l).length = l.length := by
  suffices h : ∀ acc : List α,
      (l.foldl (fun acc a => insertStable le a acc) acc).length = acc.length + l.length by
    simpa [stableSortBy] using h []
  induction l with
  | nil => intro acc; simp
  | cons a as ih =>
    intro acc
    rw [List.foldl_cons, ih, insertStable_length]
    simp only [List.length_cons]
    omega

lemma getD_mem {l : List α} {i : Nat} (h : i < l.length) (d : α) : l.getD i d ∈ l := by
  induction l generalizing i with
  | nil => simp at h
  | cons a t ih =>
    cases i with
    | zero => exact List.mem_cons_self a t
    | succ j => exact List.mem_cons_of_mem a (ih (by simpa using h) )

lemma filter_cardId_length (x : Card) (l : List Card) (hx : x ∈ l)
    (hn : (l.map Card.cardId).Nodup) :
    (l.filter (fun c => !decide (c.cardId = x.cardId))).length + 1 = l.length := by
  induction l with
  | nil => cases hx
  | cons a t ih =>
    rw [List.map_cons, List.nodup_cons] at hn
    obtain ⟨ha, ht⟩ := hn
    rcases List.mem_cons.1 hx with rfl | hx
    · have hkeep : t.filter (fun c => !decide (c.cardId = x.cardId)) = t := by
        apply List.filter_eq_self.2
        intro c hc
        have : c.cardId ≠ x.cardId := by
          intro hcc
          exact ha (by rw [← hcc]; exact List.mem_map_of_mem Card.cardId hc)
        simp [this]
      simp [List.filter_cons, hkeep]
    · have hax : a.cardId ≠ x.cardId := by
        intro hcc
        exact ha (by rw [hcc]; exact List.mem_map_of_mem Card.cardId hx)
      have := ih hx ht
      simp only [List.filter_cons, hax, decide_False, Bool.not_false, if_true]
      simp only [List.length_cons]
      omega

lemma length_take_drop (n : Nat) (l : List α) :
    (l.take n).length + (l.drop n).length = l.length := by
  rw [← List.length_append, List.take_append_drop]

lemma dealLoop_hands (ps : List Player) :
    ∀ (deckCards : List Card) (seat firstIdx : Nat),
      handsTotal (dealLoop ps deckCards seat firstIdx).1 +
        (dealLoop ps deckCards seat firstIdx).2.length =
      handsTotal ps + deckCards.length := by
  induction ps with
  | nil => intro d s f; simp [dealLoop]
  | cons p rest ih =>
    intro d s f
    unfold dealLoop
    dsimp only
    cases hdl : dealLoop rest (d.drop (if decide (s = f) then 8 else 7)) (s + 1) f with
    | mk ps' deckF =>
      have hrec := ih (d.drop (if decide (s = f) then 8 else 7)) (s + 1) f
      rw [hdl] at hrec
      dsimp at hrec
      have htd := length_take_drop (if decide (s = f) then 8 else 7) d
      simp only [handsTotal, List.map_cons, List.sum_cons, Player.sortHand,
        stableSortBy_length, List.length_append] at *
      omega

lemma dealLoop_melds (ps : List Player) :
    ∀ (deckCards : List Card) (seat firstIdx : Nat),
      meldsTotal (dealLoop ps deckCards seat firstIdx).1 = meldsTotal ps := by
  induction ps with
  | nil => intro d s f; rfl
  | cons p rest ih =>
    intro d s f
    unfold dealLoop
    dsimp only
    cases hdl : dealLoop rest (d.drop (if decide (s = f) then 8 else 7)) (s + 1) f with
    | mk ps' deckF =>
      have hrec := ih (d.drop (if decide (s = f) then 8 else 7)) (s + 1) f
      rw [hdl] at hrec
      dsimp at hrec
      simp only [meldsTotal, List.map_cons, List.sum_cons, Player.sortHand,
        meldCardsCount] at *
      omega

lemma handsTotal_mkPlayers (ids : List String) : handsTotal (ids.map mkPlayer) = 0 := by
  induction ids with
  | nil => rfl
  | cons i t ih => simp [handsTotal, mkPlayer, List.map_cons] at *; exact ih

lemma meldsTotal_mkPlayers (ids : List String) : meldsTotal (ids.map mkPlayer) = 0 := by
  induction ids with
  | nil => rfl
  | cons i t ih =>
    simp [meldsTotal, meldCardsCount, mkPlayer, List.map_cons] at *
    exact ih

/-- The invariant carried through the round: 103 cards in play — the 52
fresh cards the `new Deck()` re-initialization adds plus the 51
surviving originals — and (because `drawCard` can never complete, see
`validateAction_draw_cases`) a turn phase that is never `meldPhase`. -/
def ConservedState (g : Game) : Prop :=
  g.getTotalCardsInPlay = 103 ∧ g.currentTurnPhase ≠ TurnPhase.meldPhase

theorem startedGame_conserved (ids : List String) (prm : InitParams)
    (h : ValidInit ids prm) : ConservedState (startedGame ids prm) := by
  obtain ⟨hids, hperm1, href, hperm2, hfirst⟩ := h
  have hlen1 : prm.shuffled1.length = 52 := by
    rw [hperm1.length_eq]; rfl
  have hd : prm.shuffled2.length = 103 := by
    rw [hperm2.length_eq]
    unfold rebuiltJokerDeck remainingAfterJoker
    dsimp only
    rw [List.length_append]
    have hmem : prm.shuffled1.getD prm.refIndex default ∈ prm.shuffled1 :=
      getD_mem (by omega) _
    have hnd : (prm.shuffled1.map Card.cardId).Nodup :=
      ((hperm1.map Card.cardId).nodup_iff).2 (by decide)
    have := filter_cardId_length _ _ hmem hnd
    have hsd : standardDeck.length = 52 := rfl
    omega
  constructor
  · rw [total_eq]
    unfold startedGame setupJokerSystem lobbyGame
    dsimp only
    cases hdl : dealLoop (ids.map mkPlayer) prm.shuffled2 0 prm.firstPlayerIndex with
    | mk ps' deckF =>
      dsimp only
      have h1 := dealLoop_hands (ids.map mkPlayer) prm.shuffled2 0 prm.firstPlayerIndex
      have h2 := dealLoop_melds (ids.map mkPlayer) prm.shuffled2 0 prm.firstPlayerIndex
      rw [hdl] at h1 h2
      dsimp at h1 h2
      have h3 := handsTotal_mkPlayers ids
      have h4 := meldsTotal_mkPlayers ids
      simp only [List.length_nil]
      omega
  · unfold startedGame
    dsimp only
    split <;> simp

lemma updFirst_measure (μ : Player → Nat) (pid : String) (f : Player → Player)
    (ps : List Player) (p : Player)
    (hp : ps.find? (fun q => decide (q.id = pid)) = some p) :
    ((updFirst ps pid f).map μ).sum + μ p = (ps.map μ).sum + μ (f p) := by
  induction ps with
  | nil => simp at hp
  | cons q qs ih =>
    by_cases hq : q.id = pid
    · rw [List.find?_cons_of_pos _ (by simpa using hq)] at hp
      injection hp with hp
      subst hp
      simp [updFirst, hq]
      omega
    · rw [List.find?_cons_of_neg _ (by simpa using hq)] at hp
      have := ih hp
      simp [updFirst, hq]
      omega

lemma updFirst_measure_congr (μ : Player → Nat) (pid : String) (f : Player → Player)
    (hf : ∀ q, μ (f q) = μ q) (ps : List Player) :
    ((updFirst ps pid f).map μ).sum = (ps.map μ).sum := by
  induction ps with
  | nil => rfl
  | cons q qs ih =>
    by_cases hq : q.id = pid <;> simp [updFirst, hq, hf, ih]

lemma foldl_setScore_measure (μ : Player → Nat)
    (hμ : ∀ (q : Player) (v : Int), μ { q with score := v } = μ q)
    (scores : List RoundScore) :
    ∀ ps : List Player,
      ((scores.foldl (fun ps s => updFirst ps s.playerId
          (fun q => { q with score := s.totalScore })) ps).map μ).sum =
        (ps.map μ).sum := by
  induction scores with
  | nil => intro ps; rfl
  | cons s rest ih =>
    intro ps
    rw [List.foldl_cons, ih]
    exact updFirst_measure_congr μ s.playerId _ (fun q => hμ q s.totalScore) ps

lemma foldl_setScore_totals (scores : List RoundScore) (ps : List Player) :
    handsTotal (scores.foldl (fun ps s => updFirst ps s.playerId
        (fun q => { q with score := s.totalScore })) ps) = handsTotal ps ∧
    meldsTotal (scores.foldl (fun ps s => updFirst ps s.playerId
        (fun q => { q with score := s.totalScore })) ps) = meldsTotal ps := by
  constructor
  · exact foldl_setScore_measure (fun p => p.hand.length) (fun _ _ => rfl) scores ps
  · exact foldl_setScore_measure meldCardsCount (fun _ _ => rfl) scores ps

lemma checkGameOver_preserves (g : Game) :
    (checkGameOver g).getTotalCardsInPlay = g.getTotalCardsInPlay ∧
    (checkGameOver g).currentTurnPhase = g.currentTurnPhase := by
  unfold checkGameOver
  split
  · exact ⟨rfl, rfl⟩
  · dsimp only
    split
    · split
      · constructor
        · rw [total_eq, total_eq]
          dsimp only
          rw [(foldl_setScore_totals _ _).1, (foldl_setScore_totals _ _).2]
        · rfl
      · exact ⟨rfl, rfl⟩
    · exact ⟨rfl, rfl⟩

lemma removeCard_some (p : Player) (cid : CardId) (card : Card) (p' : Player)
    (h : p.removeCard cid = (some card, p')) :
    p'.hand.length + 1 = p.hand.length ∧ p'.melds = p.melds := by
  unfold Player.removeCard at h
  split at h
  · rename_i i hi
    have h1 : p.hand.get? i = some card := congrArg Prod.fst h
    have h2 : p' = { p with hand := p.hand.eraseIdx i } := (congrArg Prod.snd h).symm
    obtain ⟨hlt, -⟩ := List.get?_eq_some.1 h1
    subst h2
    refine ⟨?_, rfl⟩
    simp only [List.length_eraseIdx, hlt, if_true]
    omega
  · exact absurd (congrArg Prod.fst h) (by simp)

lemma handsTotal_updFirst (pid : String) (f : Player → Player) (ps : List Player)
    (p : Player) (hp : ps.find? (fun q => decide (q.id = pid)) = some p) :
    handsTotal (updFirst ps pid f) + p.hand.length =
      handsTotal ps + (f p).hand.length :=
  updFirst_measure (fun q => q.hand.length) pid f ps p hp

lemma meldsTotal_updFirst (pid : String) (f : Player → Player) (ps : List Player)
    (p : Player) (hp : ps.find? (fun q => decide (q.id = pid)) = some p) :
    meldsTotal (updFirst ps pid f) + meldCardsCount p =
      meldsTotal ps + meldCardsCount (f p) :=
  updFirst_measure meldCardsCount pid f ps p hp

lemma handsTotal_updFirst_congr (pid : String) (f : Player → Player)
    (hf : ∀ q, (f q).hand = q.hand) (ps : List Player) :
    handsTotal (updFirst ps pid f) = handsTotal ps :=
  updFirst_measure_congr (fun q => q.hand.length) pid f (fun q => by simp [hf]) ps

lemma meldsTotal_updFirst_congr (pid : String) (f : Player → Player)
    (hf : ∀ q, (f q).melds = q.melds) (ps : List Player) :
    meldsTotal (updFirst ps pid f) = meldsTotal ps :=
  updFirst_measure_congr meldCardsCount pid f
    (fun q => by unfold meldCardsCount; rw [hf]) ps

lemma addCard_cards_length (d : DiscardPile) (c : Card) (pid : String) :
    (d.addCard c pid).cards.length = d.cards.length + 1 := by
  simp [DiscardPile.addCard]

lemma updateFirst_players (g : Game) (pid : String) (f : Player → Player) :
    (g.updateFirst pid f).players = updFirst g.players pid f := rfl

lemma updateFirst_deck (g : Game) (pid : String) (f : Player → Player) :
    (g.updateFirst pid f).deck = g.deck := rfl

lemma updateFirst_discardPile (g : Game) (pid : String) (f : Player → Player) :
    (g.updateFirst pid f).discardPile = g.discardPile := rfl

lemma updateFirst_phase (g : Game) (pid : String) (f : Player → Player) :
    (g.updateFirst pid f).currentTurnPhase = g.currentTurnPhase := rfl

lemma discardCard_inv (g : Game) (pid : String) (cid : CardId)
    (h : ConservedState g) : ConservedState (g.discardCard pid cid).2 := by
  unfold Game.discardCard
  cases hp : g.getPlayer pid with
  | none => exact h
  | some player =>
    dsimp only
    split
    · exact h
    · cases hv : validateAction g pid ActionKind.discard (some cid) none none with
      | crash => exact h
      | err e => exact h
      | ok vr =>
        dsimp only
        split
        · exact h
        · cases hr : player.removeCard cid with
          | mk c p' =>
            cases c with
            | none => exact h
            | some card =>
              obtain ⟨hlen, hmelds⟩ := removeCard_some player cid card p' hr
              have hfind : g.players.find? (fun q => decide (q.id = pid)) = some player := hp
              have hh := handsTotal_updFirst pid (fun _ => p') g.players player hfind
              have hm := meldsTotal_updFirst pid (fun _ => p') g.players player hfind
              dsimp only at hh hm
              have hmc : meldCardsCount p' = meldCardsCount player := by
                unfold meldCardsCount
                rw [hmelds]
              have htot : handsTotal g.players + meldsTotal g.players +
                  g.deck.cards.length + g.discardPile.cards.length = 103 := by
                have := h.1
                rw [total_eq] at this
                exact this
              constructor
              · rw [(checkGameOver_preserves _).1, total_eq]
                repeat' split
                all_goals
                  dsimp only
                all_goals
                  simp only [updateFirst_players, updateFirst_deck,
                    updateFirst_discardPile, addCard_cards_length,
                    handsTotal_updFirst_congr pid
                      (fun q => { q with
                        score := q.score + (calculateWinningScore card : Int) })
                      (fun q => rfl),
                    meldsTotal_updFirst_congr pid
                      (fun q => { q with
                        score := q.score + (calculateWinningScore card : Int) })
                      (fun q => rfl)]
                all_goals omega
              · rw [(checkGameOver_preserves _).2]
                repeat' split
                all_goals
                  first
                  | exact h.2
                  | simp

lemma conserved_step (g : Game) (a : GameAction) (h : ConservedState g) :
    ConservedState (applyAction g a).2 := by
  cases a with
  | draw pid fd cnt =>
    simp only [applyAction, drawCard_snd]
    exact h
  | discard pid cid => exact discardCard_inv g pid cid h
  | meld pid cardIds =>
    have hm : (g.createMeld pid cardIds).2 = g := by
      unfold Game.createMeld
      simp [h.2]
    simp only [applyAction, hm]
    exact h
  | skipMeld =>
    have hs : (g.skipMeldPhase).2 = g := by
      unfold Game.skipMeldPhase
      simp [h.2]
    simp only [applyAction, hs]
    exact h

/-- The total card count conserved by every reachable state is 103, not
51: `start()` puts 103 cards in circulation, a successful discard moves
one card from a hand to the pile, every `drawCard` invocation fails
before mutating (`drawCard_snd`), and `createMeld`/`skipMeldPhase`
cannot move cards because the meld phase is never reached. -/
lemma reachable_total_conserved (playerIds : List String) (g : Game)
    (h : Reachable playerIds g) : g.getTotalCardsInPlay = 103 := by
  suffices hs : ConservedState g from hs.1
  induction h with
  | init prm hv => exact startedGame_conserved playerIds prm hv
  | step a hg ih => exact conserved_step _ a ih

/-- C5.  The claim says
`|deck| + |discardPile| + sum of hand sizes + cards inside declared
melds` (the source's `getTotalCardsInPlay`) equals 51 in every reachable
state.  It does not: `setupJokerSystem` rebuilds the deck with
`this.deck = new Deck()` — whose constructor initializes a fresh 52-card
standard deck — before `addCards` appends the 51 surviving originals, so
right after `start()` there are 103 cards in play, and 103 (not 51) is
the total conserved by every reachable state.  The source's own comment
at that site ("shuffle remaining 51 cards") and `debugGameState`
("Expected total: 51 (52 - 1 jokerDeterminer)") expect 51, so the
re-initialization is a slip in the code, not in the claim. -/
theorem c5_total_is_103_not_51 :
    (∀ (playerIds : List String) (g : Game), Reachable playerIds g →
      g.getTotalCardsInPlay = 103) ∧
    (startedGame ids4 prmSeat2).getTotalCardsInPlay = 103 :=
  ⟨reachable_total_conserved, by decide⟩

/-- C5 witness: the conservation-at-103 theorem applied to a concretely
started game. -/
theorem c5_witness :
    Reachable ids4 (startedGame ids4 prmSeat2) ∧
    (startedGame ids4 prmSeat2).getTotalCardsInPlay = 103 := by
  have hvalid : ValidInit ids4 prmSeat2 :=
    ⟨rfl, List.Perm.refl _, by decide, List.Perm.refl _, by decide⟩
  exact ⟨Reachable.init prmSeat2 hvalid,
    c5_total_is_103_not_51.1 ids4 _ (Reachable.init prmSeat2 hvalid)⟩
